import Mathlib

/-!
Verification development for the gui_puppy sidecar (src/sidecar).

The definitions below are a shallow embedding of the Python source:
`message_handler.py` (event relay and interaction correlator),
`gui_sidecar.py` (socket handlers, prompt admission, reply delivery) and
`agent_runner.py` (agent lifecycle and unit-of-work orchestration).
Each definition's doc comment names the source function it embeds.
-/

namespace GuiPuppy

/-- Message levels of `code_puppy.messaging.MessageLevel` as consumed by the
`level_map` dictionary in `MessageHandler.forward_message`. -/
inductive MessageLevel
  | debug
  | info
  | warning
  | error
  | success
deriving DecidableEq

/-- One line of a `DiffMessage` (`type`, `content`, `line_number`). -/
structure DiffLine where
  type : String
  content : String
  lineNumber : Nat
deriving DecidableEq

/-- One match of a `GrepResultMessage` (`file_path`, `line_number`, `line_content`). -/
structure GrepMatch where
  filePath : String
  lineNumber : Nat
  lineContent : String
deriving DecidableEq

/-- One entry of a `FileListingMessage` (`path`, `type`, `size`, `depth`). -/
structure FileEntry where
  path : String
  type : String
  size : Nat
  depth : Nat
deriving DecidableEq

/-- One option of a `SelectionRequest` (`label`, `value`). -/
structure SelOption where
  label : String
  value : String
deriving DecidableEq

/-- The backend's queue events, the closed set of `code_puppy.messaging` classes
dispatched on in `MessageHandler.forward_message` (message_handler.py lines 75-238).
`generic` models the fallback branch's `getattr(msg, 'content'/'text')` chain, with
the empty string standing for a falsy/absent content. -/
inductive Msg
  | textMsg (text : String) (level : MessageLevel)
  | fileContent (path content : String) (startLine numLines totalLines numTokens : Nat)
  | diffMsg (path operation : String) (diffLines : List DiffLine)
  | shellStart (command : String)
  | shellOutput (command stdout : String) (stderr : Option String) (exitCode : Int)
  | reasoningMsg (reasoningText nextSteps : String)
  | agentResponse (content : String)
  | subAgentInvocation (agentName prompt sessionId : String) (isNewSession : Bool)
  | subAgentResponse (agentName sessionId response : String)
  | inputRequest (promptId prompt : String)
  | confirmationRequest (promptId prompt : String) (defaultChoice allowFeedback : Bool)
  | selectionRequest (promptId prompt : String) (options : List SelOption) (multiSelect : Bool)
  | spinnerControl (action spinnerId text : String)
  | grepResult (searchTerm directory : String) (matchList : List GrepMatch)
      (totalMatches filesSearched : Nat)
  | fileListing (directory : String) (files : List FileEntry) (recursive : Bool)
      (totalSize dirCount fileCount : Nat)
  | statusPanel (title : String) (fields : List (String × String))
  | divider
  | versionCheck (updateAvailable : Bool) (currentVersion latestVersion : String)
  | generic (content : String)
deriving DecidableEq

/-- Outbound wire records, one per `sio.emit` payload shape produced by the
sidecar (the `message` sub-kinds, the three request records, `error` and
`task_complete`). Field lists follow the dictionaries built in
`forward_message`, `_handle_*_request`, `run_prompt` and the `prompt` handler. -/
inductive Out
  | textOut (content level : String)
  | fileContent (path content : String) (startLine numLines totalLines numTokens : Nat)
  | diffOut (path operation : String) (diffLines : List DiffLine) (content : String)
  | shellStart (command content : String)
  | shellOutput (command stdout stderr : String) (exitCode : Int) (content : String)
  | reasoning (content nextSteps : String)
  | agentResponse (content : String)
  | subAgent (agentName prompt sessionId : String) (isNewSession : Bool) (content : String)
  | subAgentResponse (agentName sessionId response content : String)
  | inputRequest (promptId prompt : String)
  | confirmationRequest (promptId prompt : String) (defaultChoice allowFeedback : Bool)
  | selectionRequest (promptId prompt : String) (options : List SelOption) (multiSelect : Bool)
  | spinner (action spinnerId content : String)
  | grepResult (searchTerm directory : String) (matchList : List GrepMatch)
      (totalMatches filesSearched : Nat)
  | fileListing (directory : String) (files : List FileEntry) (recursive : Bool)
      (totalSize dirCount fileCount : Nat)
  | statusPanel (title : String) (fields : List (String × String))
  | divider (content : String)
  | versionCheck (content : String)
  | genericText (content : String)
  | statusMsg (content : String)
  | errorOut (message : String)
  | taskComplete
deriving DecidableEq

/-- Responses handed back into the backend bus by `bus.provide_response`:
`UserInputResponse`, `ConfirmationResponse`, `SelectionResponse`. -/
inductive BusResponse
  | userInput (promptId response : String)
  | confirmation (promptId : String) (confirmed : Bool) (feedback : Option String)
  | selection (promptId : String) (selected : List String)
deriving DecidableEq

/-- State of one `asyncio.Future` stored in `_pending_inputs`: still awaitable,
or done (resolved by `set_result`, or cancelled by `asyncio.wait_for`'s timeout). -/
inductive FutState
  | pending
  | done
deriving DecidableEq

/-- Value set on a pending future by the three `*_response` socket handlers:
`('input', response)`, `('confirm', confirmed, feedback)`, `('select', selected)`. -/
inductive FutValue
  | input (response : String)
  | confirm (confirmed : Bool) (feedback : Option String)
  | select (selected : List String)
deriving DecidableEq

/-- The `_pending_inputs` dictionary, keyed by `prompt_id` (the correlation id).
A Python dict is modelled as an association list whose keys are unique
(`keysNodup`), with insertion-order semantics. -/
abbrev PendingMap := List (String × FutState)

/-- Keys of the pending map. -/
def keys (m : PendingMap) : List String := m.map Prod.fst

/-- The dict invariant: every correlation id occurs at most once. -/
def keysNodup (m : PendingMap) : Prop := (keys m).Nodup

instance (m : PendingMap) : Decidable (keysNodup m) := by
  unfold keysNodup; infer_instance

/-- Dictionary lookup `m[k]` / `k in m`. -/
def lookupFut : PendingMap → String → Option FutState
  | [], _ => none
  | (k1, v1) :: rest, k => if k1 = k then some v1 else lookupFut rest k

/-- Dictionary assignment `self._pending_inputs[prompt_id] = future`: replaces the
entry if the key is present, otherwise appends it. -/
def setEntry : PendingMap → String → FutState → PendingMap
  | [], k, v => [(k, v)]
  | (k1, v1) :: rest, k, v =>
      if k1 = k then (k, v) :: rest else (k1, v1) :: setEntry rest k v

/-- Dictionary removal `self._pending_inputs.pop(prompt_id)`. -/
def eraseEntry : PendingMap → String → PendingMap
  | [], _ => []
  | (k1, v1) :: rest, k => if k1 = k then rest else (k1, v1) :: eraseEntry rest k

theorem keys_cons (k1 : String) (v1 : FutState) (tl : PendingMap) :
    keys ((k1, v1) :: tl) = k1 :: keys tl := rfl

theorem setEntry_cons_eq (k1 : String) (v1 : FutState) (tl : PendingMap) (k : String)
    (v : FutState) (h : k1 = k) : setEntry ((k1, v1) :: tl) k v = (k, v) :: tl := by
  simp [setEntry, h]

theorem setEntry_cons_ne (k1 : String) (v1 : FutState) (tl : PendingMap) (k : String)
    (v : FutState) (h : k1 ≠ k) :
    setEntry ((k1, v1) :: tl) k v = (k1, v1) :: setEntry tl k v := by
  simp [setEntry, h]

theorem eraseEntry_cons_eq (k1 : String) (v1 : FutState) (tl : PendingMap) (k : String)
    (h : k1 = k) : eraseEntry ((k1, v1) :: tl) k = tl := by
  simp [eraseEntry, h]

theorem eraseEntry_cons_ne (k1 : String) (v1 : FutState) (tl : PendingMap) (k : String)
    (h : k1 ≠ k) : eraseEntry ((k1, v1) :: tl) k = (k1, v1) :: eraseEntry tl k := by
  simp [eraseEntry, h]

theorem lookupFut_cons_eq (k1 : String) (v1 : FutState) (tl : PendingMap) (k : String)
    (h : k1 = k) : lookupFut ((k1, v1) :: tl) k = some v1 := by
  simp [lookupFut, h]

theorem lookupFut_cons_ne (k1 : String) (v1 : FutState) (tl : PendingMap) (k : String)
    (h : k1 ≠ k) : lookupFut ((k1, v1) :: tl) k = lookupFut tl k := by
  simp [lookupFut, h]

theorem lookupFut_setEntry_self (m : PendingMap) (k : String) (v : FutState) :
    lookupFut (setEntry m k v) k = some v := by
  induction m with
  | nil => simp [setEntry, lookupFut]
  | cons hd tl ih =>
    obtain ⟨k1, v1⟩ := hd
    by_cases h : k1 = k
    · rw [setEntry_cons_eq k1 v1 tl k v h]
      exact lookupFut_cons_eq k v tl k rfl
    · rw [setEntry_cons_ne k1 v1 tl k v h, lookupFut_cons_ne k1 v1 (setEntry tl k v) k h]
      exact ih

theorem mem_keys_setEntry (m : PendingMap) (k a : String) (v : FutState) :
    a ∈ keys (setEntry m k v) ↔ a ∈ keys m ∨ a = k := by
  induction m with
  | nil => simp [setEntry, keys]
  | cons hd tl ih =>
    obtain ⟨k1, v1⟩ := hd
    by_cases h : k1 = k
    · rw [setEntry_cons_eq k1 v1 tl k v h, keys_cons, keys_cons, List.mem_cons, List.mem_cons, h]
      tauto
    · rw [setEntry_cons_ne k1 v1 tl k v h, keys_cons, keys_cons, List.mem_cons, List.mem_cons, ih]
      tauto

theorem keysNodup_setEntry (m : PendingMap) (k : String) (v : FutState)
    (h : keysNodup m) : keysNodup (setEntry m k v) := by
  induction m with
  | nil => simp [setEntry, keysNodup, keys]
  | cons hd tl ih =>
    obtain ⟨k1, v1⟩ := hd
    rw [keysNodup, keys_cons, List.nodup_cons] at h
    by_cases hk : k1 = k
    · rw [keysNodup, setEntry_cons_eq k1 v1 tl k v hk, keys_cons, List.nodup_cons]
      exact ⟨hk ▸ h.1, h.2⟩
    · rw [keysNodup, setEntry_cons_ne k1 v1 tl k v hk, keys_cons, List.nodup_cons]
      refine ⟨?_, ih h.2⟩
      intro hmem
      rcases (mem_keys_setEntry tl k k1 v).mp hmem with hm | rfl
      · exact h.1 hm
      · exact hk rfl

theorem eraseEntry_sublist (m : PendingMap) (k : String) :
    List.Sublist (eraseEntry m k) m := by
  induction m with
  | nil => simp [eraseEntry]
  | cons hd tl ih =>
    obtain ⟨k1, v1⟩ := hd
    by_cases h : k1 = k
    · rw [eraseEntry_cons_eq k1 v1 tl k h]
      exact List.sublist_cons_self (k1, v1) tl
    · rw [eraseEntry_cons_ne k1 v1 tl k h]
      exact List.Sublist.cons₂ (k1, v1) ih

theorem keysNodup_eraseEntry (m : PendingMap) (k : String)
    (h : keysNodup m) : keysNodup (eraseEntry m k) :=
  List.Nodup.sublist (List.Sublist.map Prod.fst (eraseEntry_sublist m k)) h

theorem lookupFut_eq_none_of_not_mem (m : PendingMap) (k : String)
    (h : k ∉ keys m) : lookupFut m k = none := by
  induction m with
  | nil => rfl
  | cons hd tl ih =>
    obtain ⟨k1, v1⟩ := hd
    rw [keys_cons, List.mem_cons] at h
    push_neg at h
    rw [lookupFut_cons_ne k1 v1 tl k (fun he => h.1 he.symm)]
    exact ih h.2

theorem lookupFut_eraseEntry_self (m : PendingMap) (k : String)
    (h : keysNodup m) : lookupFut (eraseEntry m k) k = none := by
  induction m with
  | nil => rfl
  | cons hd tl ih =>
    obtain ⟨k1, v1⟩ := hd
    rw [keysNodup, keys_cons, List.nodup_cons] at h
    by_cases hk : k1 = k
    · rw [eraseEntry_cons_eq k1 v1 tl k hk]
      exact lookupFut_eq_none_of_not_mem tl k (hk ▸ h.1)
    · rw [eraseEntry_cons_ne k1 v1 tl k hk, lookupFut_cons_ne k1 v1 (eraseEntry tl k) k hk]
      exact ih h.2

/-- Embedding of the `input_response` socket handler (gui_sidecar.py lines 204-213):
if the correlation id is in `_pending_inputs`, pop its future and, when the future is
not yet done, set `('input', response)` on it; otherwise do nothing. The second
component is the value set on the future, if any. -/
def inputResponse (m : PendingMap) (promptId response : String) :
    PendingMap × Option FutValue :=
  match lookupFut m promptId with
  | none => (m, none)
  | some FutState.pending => (eraseEntry m promptId, some (FutValue.input response))
  | some FutState.done => (eraseEntry m promptId, none)

/-- Embedding of the `confirmation_response` socket handler (gui_sidecar.py lines
215-225): pop the future for the id if present, and set `('confirm', confirmed,
feedback)` on it when it is not yet done. -/
def confirmationResponse (m : PendingMap) (promptId : String) (confirmed : Bool)
    (feedback : Option String) : PendingMap × Option FutValue :=
  match lookupFut m promptId with
  | none => (m, none)
  | some FutState.pending =>
      (eraseEntry m promptId, some (FutValue.confirm confirmed feedback))
  | some FutState.done => (eraseEntry m promptId, none)

/-- Embedding of the `selection_response` socket handler (gui_sidecar.py lines
227-236): pop the future for the id if present, and set `('select', selected)` on it
when it is not yet done. -/
def selectionResponse (m : PendingMap) (promptId : String) (selected : List String) :
    PendingMap × Option FutValue :=
  match lookupFut m promptId with
  | none => (m, none)
  | some FutState.pending => (eraseEntry m promptId, some (FutValue.select selected))
  | some FutState.done => (eraseEntry m promptId, none)

/-- Outcome of one correlated wait: either a matching client reply resolves the
future within the 300 s `asyncio.wait_for` deadline, or the deadline elapses. -/
inductive InputOutcome
  | replied (response : String)
  | timeout
deriving DecidableEq

/-- Outcome of a confirmation wait. -/
inductive ConfirmOutcome
  | replied (confirmed : Bool) (feedback : Option String)
  | timeout
deriving DecidableEq

/-- Client payload of a `selection_response`: `data.get('selected', [])` may be a
single value or a list. -/
inductive SelectPayload
  | one (s : String)
  | many (l : List String)
deriving DecidableEq

/-- Outcome of a selection wait. -/
inductive SelectOutcome
  | replied (selected : SelectPayload)
  | timeout
deriving DecidableEq

/-- Normalization `selected if isinstance(selected, list) else [selected]` from
`_handle_selection_request`. -/
def normalizeSelected : SelectPayload → List String
  | SelectPayload.one s => [s]
  | SelectPayload.many l => l

/-- The `timeout=300` argument of every `asyncio.wait_for` call in the three
request handlers. -/
def interactionTimeoutSeconds : Nat := 300

/-- Embedding of `MessageHandler._handle_input_request` (message_handler.py lines
240-261) joined with the `input_response` delivery that resolves its future: register
a fresh pending future under `msg.prompt_id`, emit the `input_request` record, then
either a matching `input_response` pops and resolves the future (the handler hands the
client text to the bus), or the 300 s timeout cancels the future (its map entry is
left in place, now done) and the handler hands the empty-string default to the bus.
Components: resulting `_pending_inputs`, emitted records, `bus.provide_response`
value. -/
def handleInputRequest (m : PendingMap) (promptId prompt : String)
    (oc : InputOutcome) : PendingMap × List Out × BusResponse :=
  let m1 := setEntry m promptId FutState.pending
  let record := [Out.inputRequest promptId prompt]
  match oc with
  | InputOutcome.replied r =>
      let deliver := inputResponse m1 promptId r
      (deliver.1, record, BusResponse.userInput promptId r)
  | InputOutcome.timeout =>
      (setEntry m1 promptId FutState.done, record, BusResponse.userInput promptId "")

/-- Embedding of `MessageHandler._handle_confirmation_request` (message_handler.py
lines 263-288) joined with `confirmation_response`; on timeout the bus receives
`confirmed=False, feedback=None`. -/
def handleConfirmationRequest (m : PendingMap) (promptId prompt : String)
    (defaultChoice allowFeedback : Bool) (oc : ConfirmOutcome) :
    PendingMap × List Out × BusResponse :=
  let m1 := setEntry m promptId FutState.pending
  let record := [Out.confirmationRequest promptId prompt defaultChoice allowFeedback]
  match oc with
  | ConfirmOutcome.replied confirmed feedback =>
      let deliver := confirmationResponse m1 promptId confirmed feedback
      (deliver.1, record, BusResponse.confirmation promptId confirmed feedback)
  | ConfirmOutcome.timeout =>
      (setEntry m1 promptId FutState.done, record,
        BusResponse.confirmation promptId false none)

/-- Embedding of `MessageHandler._handle_selection_request` (message_handler.py lines
290-313) joined with `selection_response`; replies are normalized by
`normalizeSelected`, and on timeout the bus receives `selected=[]`. -/
def handleSelectionRequest (m : PendingMap) (promptId prompt : String)
    (options : List SelOption) (multiSelect : Bool) (oc : SelectOutcome) :
    PendingMap × List Out × BusResponse :=
  let m1 := setEntry m promptId FutState.pending
  let record := [Out.selectionRequest promptId prompt options multiSelect]
  match oc with
  | SelectOutcome.replied sel =>
      let deliver := selectionResponse m1 promptId (normalizeSelected sel)
      (deliver.1, record, BusResponse.selection promptId (normalizeSelected sel))
  | SelectOutcome.timeout =>
      (setEntry m1 promptId FutState.done, record, BusResponse.selection promptId [])

/-- One observable step of the relay: a record sent to the client over the socket,
or a normalized reply handed back to the backend via `bus.provide_response`. -/
inductive Step
  | send (o : Out)
  | resolve (r : BusResponse)
deriving DecidableEq

/-- Environment fixing, per correlation id, whether and how the client answers each
kind of request within its deadline. -/
structure ReplyEnv where
  inputOutcome : String → InputOutcome
  confirmOutcome : String → ConfirmOutcome
  selectOutcome : String → SelectOutcome

/-- The `level_map` dictionary of `forward_message`. -/
def levelMap : MessageLevel → String
  | MessageLevel.debug => "debug"
  | MessageLevel.info => "info"
  | MessageLevel.warning => "warning"
  | MessageLevel.error => "error"
  | MessageLevel.success => "success"

/-- Per-line marker `{'add': '+', 'remove': '-', 'context': ' '}.get(line.type, ' ')`
from the `DiffMessage` branch of `forward_message`. -/
def diffSign (t : String) : String :=
  if t = "add" then "+" else if t = "remove" then "-" else if t = "context" then " " else " "

/-- Joined diff text `'\n'.join(f"{prefix}{line.content}")` of the `DiffMessage`
branch. -/
def diffContentText (ls : List DiffLine) : String :=
  String.intercalate "\n" (ls.map (fun l => diffSign l.type ++ l.content))

/-- Embedding of `MessageHandler.forward_message` (message_handler.py lines 75-238):
the isinstance dispatch mapping one dequeued event to its outbound records, with the
three request kinds delegated to the correlator handlers (which block this call until
resolved and also hand the normalized reply to the backend). Returns the updated
pending map and the observable steps of the call. -/
def forwardMessage (pm : PendingMap) (msg : Msg) (env : ReplyEnv) :
    PendingMap × List Step :=
  match msg with
  | Msg.textMsg t level => (pm, [Step.send (Out.textOut t (levelMap level))])
  | Msg.fileContent p c sl nl tl nt => (pm, [Step.send (Out.fileContent p c sl nl tl nt)])
  | Msg.diffMsg p op ls => (pm, [Step.send (Out.diffOut p op ls (diffContentText ls))])
  | Msg.shellStart c => (pm, [Step.send (Out.shellStart c ("$ " ++ c))])
  | Msg.shellOutput c so se ec =>
      (pm, [Step.send (Out.shellOutput c so (se.getD "") ec (so ++ se.getD ""))])
  | Msg.reasoningMsg r ns => (pm, [Step.send (Out.reasoning r ns)])
  | Msg.agentResponse c => (pm, [Step.send (Out.agentResponse c)])
  | Msg.subAgentInvocation n p s newSession =>
      (pm, [Step.send (Out.subAgent n p s newSession
        ("[" ++ n ++ "] " ++ p.take 100 ++ "..."))])
  | Msg.subAgentResponse n s r => (pm, [Step.send (Out.subAgentResponse n s r r)])
  | Msg.inputRequest pid pr =>
      let h := handleInputRequest pm pid pr (env.inputOutcome pid)
      (h.1, h.2.1.map Step.send ++ [Step.resolve h.2.2])
  | Msg.confirmationRequest pid pr d af =>
      let h := handleConfirmationRequest pm pid pr d af (env.confirmOutcome pid)
      (h.1, h.2.1.map Step.send ++ [Step.resolve h.2.2])
  | Msg.selectionRequest pid pr opts multi =>
      let h := handleSelectionRequest pm pid pr opts multi (env.selectOutcome pid)
      (h.1, h.2.1.map Step.send ++ [Step.resolve h.2.2])
  | Msg.spinnerControl a sid t => (pm, [Step.send (Out.spinner a sid t)])
  | Msg.grepResult s d ms tm fs => (pm, [Step.send (Out.grepResult s d ms tm fs)])
  | Msg.fileListing d fs r ts dc fc =>
      (pm, [Step.send (Out.fileListing d fs r ts dc fc)])
  | Msg.statusPanel t f => (pm, [Step.send (Out.statusPanel t f)])
  | Msg.divider => (pm, [Step.send (Out.divider (String.mk (List.replicate 40 '─')))])
  | Msg.versionCheck upd cv lv =>
      if upd then
        (pm, [Step.send (Out.versionCheck ("Update available: " ++ cv ++ " → " ++ lv))])
      else (pm, [])
  | Msg.generic c =>
      if c = "" then (pm, []) else (pm, [Step.send (Out.genericText c)])

/-- Request-kind classification: the three event kinds delegated to the correlator. -/
def isRequestKind : Msg → Bool
  | Msg.inputRequest _ _ => true
  | Msg.confirmationRequest _ _ _ _ => true
  | Msg.selectionRequest _ _ _ _ => true
  | _ => false

/-- Embedding of the normal (uncancelled) phase of `MessageHandler.consume_messages`
(message_handler.py lines 47-59): the single consumer task repeatedly dequeues with
`get_message_nowait` (an entry may be `None`, which is skipped) and awaits
`forward_message` to completion before polling again, so the queue contents are
processed strictly in arrival order. -/
def relayForward (pm : PendingMap) (msgs : List (Option Msg)) (env : ReplyEnv) :
    PendingMap × List Step :=
  match msgs with
  | [] => (pm, [])
  | none :: rest => relayForward pm rest env
  | some m :: rest =>
      let f := forwardMessage pm m env
      let r := relayForward f.1 rest env
      (r.1, f.2 ++ r.2)

/-- The fixed drain cap `range(100)` of the `CancelledError` branch of
`consume_messages`. -/
def drainCap : Nat := 100

/-- Embedding of the bounded drain phase of `consume_messages` (message_handler.py
lines 60-71): after cancellation, up to `fuel` further non-blocking dequeues are
attempted, forwarding each non-`None` message, stopping early when the queue raises
`Empty`. Components: resulting pending map, observable steps, and the number of
events actually forwarded. -/
def drainLoop (env : ReplyEnv) : Nat → PendingMap → List (Option Msg) →
    PendingMap × List Step × Nat
  | 0, pm, _ => (pm, [], 0)
  | _ + 1, pm, [] => (pm, [], 0)
  | fuel + 1, pm, none :: rest => drainLoop env fuel pm rest
  | fuel + 1, pm, some m :: rest =>
      let f := forwardMessage pm m env
      let r := drainLoop env fuel f.1 rest
      (r.1, f.2 ++ r.2.1, r.2.2 + 1)

/-- The backend agent object kept in `AgentRunner._current_agent`: its model name
(`get_model_name()` / `_model_name`), the cached pydantic generation agent
(`_code_generation_agent`, the "generation artifact", modelled opaquely as present or
cleared), and the accumulated conversation history (`get_message_history()`, opaque
entries). -/
structure AgentHandle where
  modelName : String
  codeGenerationAgent : Option Unit
  messageHistory : List String
deriving DecidableEq

/-- Mutable state of `AgentRunner` relevant to agent lifecycle: `_current_agent`,
`_current_agent_name`, `_credentials_version`, plus a generation counter for the
global message bus (`reset_message_bus` replaces the queue; an unchanged counter
means the same queue object is kept). -/
structure RunnerState where
  currentAgent : Option AgentHandle
  currentAgentName : Option String
  credentialsVersion : Nat
  busGeneration : Nat
deriving DecidableEq

/-- Embedding of `AgentRunner.increment_credentials_version` (agent_runner.py lines
34-39): bump the counter and, when an agent is loaded, clear its cached
`_code_generation_agent` immediately. -/
def incrementCredentialsVersion (st : RunnerState) : RunnerState :=
  { st with
    credentialsVersion := st.credentialsVersion + 1,
    currentAgent := st.currentAgent.map
      (fun a => { a with codeGenerationAgent := none }) }

/-- The `need_new_agent` condition of `AgentRunner.run_prompt` (agent_runner.py lines
62-65): no current agent, or the desired agent name differs. -/
def needNewAgent (st : RunnerState) (defaultAgent : String) : Bool :=
  st.currentAgent.isNone || decide (st.currentAgentName ≠ some defaultAgent)

/-- Result of the agent-resolution block: the updated runner state and whether
`load_agent` failed (returned a falsy value). -/
structure ResolveOut where
  state : RunnerState
  failed : Bool
deriving DecidableEq

/-- Embedding of the agent-reload decision block of `AgentRunner.run_prompt`
(agent_runner.py lines 57-105): when a new agent is needed, reset the message bus
(fresh queue) and attempt `load_agent(default_agent)` once — on failure nothing is
installed, on success the new handle and name are installed (hard reset); otherwise
the existing agent is reused, with a soft invalidation (`_code_generation_agent =
None; _model_name = default_model`) when only the model name changed. `loader` is
the result of the single `load_agent` call. -/
def resolveAgent (st : RunnerState) (defaultAgent defaultModel : String)
    (loader : Option AgentHandle) : ResolveOut :=
  if needNewAgent st defaultAgent then
    let st1 : RunnerState := { st with busGeneration := st.busGeneration + 1 }
    match loader with
    | none => ResolveOut.mk st1 true
    | some agent =>
        ResolveOut.mk
          { st1 with currentAgent := some agent,
                     currentAgentName := some defaultAgent } false
  else
    match st.currentAgent with
    | none => ResolveOut.mk st false
    | some agent =>
        if agent.modelName ≠ defaultModel then
          let invalidated : AgentHandle :=
            { agent with codeGenerationAgent := none, modelName := defaultModel }
          ResolveOut.mk { st with currentAgent := some invalidated } false
        else ResolveOut.mk st false

/-- Outcome of awaiting `agent.run_with_mcp` inside the inner try of `run_prompt`:
normal return (with the extracted response output, `None`/empty if there is nothing
to show), cooperative cancellation (`asyncio.CancelledError`), or any other
exception with its description. -/
inductive RunOutcome
  | success (respOutput : Option String)
  | cancelled
  | failure (message : String)
deriving DecidableEq

/-- Records emitted by `run_prompt` after the backend invocation settles
(agent_runner.py lines 118-167): the optional `agent_response` on success, the
`Task cancelled` status on cancellation, the `error` record on an internal fault —
in every case followed by exactly one `task_complete` after the consumer is
cancelled and awaited. -/
def finishEvents : RunOutcome → List Out
  | RunOutcome.success resp =>
      (match resp with
       | some r => if r = "" then [] else [Out.agentResponse r]
       | none => []) ++ [Out.taskComplete]
  | RunOutcome.cancelled => [Out.statusMsg "Task cancelled", Out.taskComplete]
  | RunOutcome.failure m => [Out.errorOut m, Out.taskComplete]

/-- Embedding of `AgentRunner.run_prompt` (agent_runner.py lines 46-172), mirrored by
`GUISidecar._run_prompt` (gui_sidecar.py lines 774-848): resolve the agent — on load
failure emit the `error` record naming the agent and one `task_complete` and return —
then run the unit of work and emit its outcome records, ending in exactly one
`task_complete`. Returns the resulting runner state and the records emitted to the
client by this coroutine. -/
def runPrompt (st : RunnerState) (defaultAgent defaultModel : String)
    (loader : Option AgentHandle) (outcome : RunOutcome) :
    RunnerState × List Out :=
  let r := resolveAgent st defaultAgent defaultModel loader
  if r.failed then
    (r.state, [Out.errorOut ("Failed to load agent: " ++ defaultAgent),
               Out.taskComplete])
  else
    (r.state, finishEvents outcome)

/-- Effect of the `prompt` socket handler (gui_sidecar.py lines 179-192): records
emitted, whether a running current task was cancelled, and the text a new
`_run_prompt` task was started with (if any). -/
structure PromptEffect where
  emitted : List Out
  cancelledCurrent : Bool
  startedTask : Option String
deriving DecidableEq

/-- Python's `str.strip()` with no argument: drop leading and trailing whitespace
characters. -/
def pyStrip (s : String) : String :=
  String.mk (((s.toList.dropWhile Char.isWhitespace).reverse.dropWhile
    Char.isWhitespace).reverse)

/-- Embedding of the `prompt` socket handler: `data.get('text', '').strip()` (modelled
by `pyStrip`); an empty result emits one `error` record with message
`Empty prompt` and returns; otherwise a running task is cancelled (if any) and a new
unit of work is started with the stripped text. -/
def promptHandler (currentTaskActive : Bool) (text : String) : PromptEffect :=
  let t := pyStrip text
  if t = "" then PromptEffect.mk [Out.errorOut "Empty prompt"] false none
  else PromptEffect.mk [] currentTaskActive (some t)

/-- Number of `task_complete` records in a list of outbound records. -/
def terminalCount (l : List Out) : Nat :=
  l.countP (fun o => match o with | Out.taskComplete => true | _ => false)

/-- Number of `task_complete` records among the client-visible steps of the relay. -/
def stepTerminalCount (l : List Step) : Nat :=
  l.countP (fun s => match s with | Step.send Out.taskComplete => true | _ => false)

/-- Claim C6: every request-kind interaction that receives no matching reply within
the 300-second timeout hands the backend a kind-specific default reply — the empty
string for an input request, confirmed=false with no feedback for a confirmation
request, and an empty selection for a selection request (the `TimeoutError` branches
of the three `_handle_*_request` methods). -/
theorem interaction_timeout_defaults (m : PendingMap) (pid prompt : String)
    (defaultChoice allowFeedback : Bool) (opts : List SelOption) (multi : Bool) :
    interactionTimeoutSeconds = 300 ∧
    (handleInputRequest m pid prompt InputOutcome.timeout).2.2 =
      BusResponse.userInput pid "" ∧
    (handleConfirmationRequest m pid prompt defaultChoice allowFeedback
        ConfirmOutcome.timeout).2.2 = BusResponse.confirmation pid false none ∧
    (handleSelectionRequest m pid prompt opts multi SelectOutcome.timeout).2.2 =
      BusResponse.selection pid [] :=
  ⟨rfl, rfl, rfl, rfl⟩

/-- Claim C7: delivering a reply whose correlation id is not present in
`_pending_inputs` is a no-op for all three reply handlers — the map is unchanged, no
future is resolved, and no fault is raised (the handlers' membership guard simply
skips). -/
theorem unknown_reply_noop (m : PendingMap) (pid r : String) (c : Bool)
    (fb : Option String) (sel : List String)
    (h : lookupFut m pid = none) :
    inputResponse m pid r = (m, none) ∧
    confirmationResponse m pid c fb = (m, none) ∧
    selectionResponse m pid sel = (m, none) := by
  unfold inputResponse confirmationResponse selectionResponse
  rw [h]
  exact ⟨rfl, rfl, rfl⟩

/-- Concrete instance of C7: a reply for an id absent from an empty pending map
leaves every piece of state unchanged. -/
theorem unknown_reply_noop_witness :
    lookupFut [] "absent" = none ∧
    (inputResponse [] "absent" "hi" = ([], none) ∧
     confirmationResponse [] "absent" true none = ([], none) ∧
     selectionResponse [] "absent" ["a"] = ([], none)) :=
  ⟨rfl, unknown_reply_noop [] "absent" "hi" true none ["a"] rfl⟩

/-- Claim C10: a prompt whose text is empty or whitespace-only (so that `strip()`
yields the empty string) makes the `prompt` handler emit one `error` record with
message `Empty prompt` and return — no running task is cancelled, no new unit of
work is started, and no terminal signal is emitted. -/
theorem empty_prompt_rejected (currentTaskActive : Bool) (text : String)
    (h : pyStrip text = "") :
    promptHandler currentTaskActive text =
      PromptEffect.mk [Out.errorOut "Empty prompt"] false none ∧
    terminalCount (promptHandler currentTaskActive text).emitted = 0 := by
  have h1 : promptHandler currentTaskActive text =
      PromptEffect.mk [Out.errorOut "Empty prompt"] false none := by
    simp [promptHandler, h]
  refine ⟨h1, ?_⟩
  rw [h1]
  rfl

/-- Concrete instance of C10: a whitespace-only prompt is rejected without side
effects. -/
theorem empty_prompt_rejected_witness :
    pyStrip " " = "" ∧
    (promptHandler true " " =
        PromptEffect.mk [Out.errorOut "Empty prompt"] false none ∧
     terminalCount (promptHandler true " ").emitted = 0) :=
  ⟨by decide, empty_prompt_rejected true " " (by decide)⟩

/-- Claim C9: when a new agent is needed and `load_agent` fails (returns no agent),
`run_prompt` emits exactly one `error` record naming the failed agent followed
immediately by the terminal signal, makes no retry (the single `load_agent` call is
the only attempt), and installs no handle: `_current_agent` and
`_current_agent_name` are exactly as before, so a session that had no usable agent
still has none. Only the message bus was reset before the load attempt. -/
theorem agent_load_failure_no_install (st : RunnerState)
    (defaultAgent defaultModel : String) (outcome : RunOutcome)
    (h : needNewAgent st defaultAgent = true) :
    runPrompt st defaultAgent defaultModel none outcome =
      ({ st with busGeneration := st.busGeneration + 1 },
       [Out.errorOut ("Failed to load agent: " ++ defaultAgent), Out.taskComplete]) ∧
    (runPrompt st defaultAgent defaultModel none outcome).1.currentAgent =
      st.currentAgent ∧
    (runPrompt st defaultAgent defaultModel none outcome).1.currentAgentName =
      st.currentAgentName := by
  have h1 : resolveAgent st defaultAgent defaultModel none =
      ResolveOut.mk { st with busGeneration := st.busGeneration + 1 } true := by
    simp [resolveAgent, h]
  refine ⟨?_, ?_, ?_⟩ <;> simp [runPrompt, h1]

/-- Concrete instance of C9: a fresh session whose agent fails to load gets the error
record and the terminal signal, and keeps no agent installed. -/
theorem agent_load_failure_no_install_witness :
    needNewAgent (RunnerState.mk none none 0 0) "code-puppy" = true ∧
    (runPrompt (RunnerState.mk none none 0 0) "code-puppy" "gpt-5" none
        (RunOutcome.success none) =
      ({ RunnerState.mk none none 0 0 with
          busGeneration := (RunnerState.mk none none 0 0).busGeneration + 1 },
       [Out.errorOut ("Failed to load agent: " ++ "code-puppy"), Out.taskComplete]) ∧
     (runPrompt (RunnerState.mk none none 0 0) "code-puppy" "gpt-5" none
        (RunOutcome.success none)).1.currentAgent =
       (RunnerState.mk none none 0 0).currentAgent ∧
     (runPrompt (RunnerState.mk none none 0 0) "code-puppy" "gpt-5" none
        (RunOutcome.success none)).1.currentAgentName =
       (RunnerState.mk none none 0 0).currentAgentName) :=
  ⟨rfl, agent_load_failure_no_install (RunnerState.mk none none 0 0) "code-puppy"
    "gpt-5" (RunOutcome.success none) rfl⟩

/-- Claim C8: when the agent name is unchanged but the desired model differs from the
current handle's model, resolution soft-invalidates the existing handle — the cached
generation artifact is cleared and the recorded model name updated — while the handle
itself, its conversation history, and the event queue (`busGeneration`) are all
preserved; no hard reset occurs. -/
theorem model_change_soft_invalidation (st : RunnerState) (a : AgentHandle)
    (n m2 : String) (loader : Option AgentHandle)
    (hA : st.currentAgent = some a) (hN : st.currentAgentName = some n)
    (hM : a.modelName ≠ m2) :
    resolveAgent st n m2 loader =
      ResolveOut.mk
        { st with currentAgent := some (AgentHandle.mk m2 none a.messageHistory) }
        false := by
  have hn : needNewAgent st n = false := by
    simp [needNewAgent, hA, hN]
  simp [resolveAgent, hn, hA, hM]

/-- Concrete instance of C8: changing only the model from `m1` to `m2` keeps the
handle and its history, clears the artifact, and records the new model. -/
theorem model_change_soft_invalidation_witness :
    (RunnerState.mk (some (AgentHandle.mk "m1" (some Unit.unit) ["hi"]))
        (some "code-puppy") 0 0).currentAgent =
      some (AgentHandle.mk "m1" (some Unit.unit) ["hi"]) ∧
    (RunnerState.mk (some (AgentHandle.mk "m1" (some Unit.unit) ["hi"]))
        (some "code-puppy") 0 0).currentAgentName = some "code-puppy" ∧
    (AgentHandle.mk "m1" (some Unit.unit) ["hi"]).modelName ≠ "m2" ∧
    resolveAgent (RunnerState.mk (some (AgentHandle.mk "m1" (some Unit.unit) ["hi"]))
        (some "code-puppy") 0 0) "code-puppy" "m2" none =
      ResolveOut.mk
        (RunnerState.mk (some (AgentHandle.mk "m2" none ["hi"])) (some "code-puppy") 0 0)
        false :=
  ⟨rfl, rfl, by decide,
    model_change_soft_invalidation
      (RunnerState.mk (some (AgentHandle.mk "m1" (some Unit.unit) ["hi"]))
        (some "code-puppy") 0 0)
      (AgentHandle.mk "m1" (some Unit.unit) ["hi"]) "code-puppy" "m2" none rfl rfl
      (by decide)⟩

/-- Claim C3: after the credential epoch is bumped (`increment_credentials_version`,
which clears the cached generation artifact at bump time) while agent identity —
name and model — is unchanged, the next agent resolution yields the same handle in
soft-invalidated form: cached generation artifact cleared, conversation history
preserved, no hard reset (same message bus, no reload). -/
theorem credential_epoch_soft_invalidation (st : RunnerState) (a : AgentHandle)
    (n : String) (loader : Option AgentHandle)
    (hA : st.currentAgent = some a) (hN : st.currentAgentName = some n) :
    resolveAgent (incrementCredentialsVersion st) n a.modelName loader =
      ResolveOut.mk
        { st with credentialsVersion := st.credentialsVersion + 1,
                  currentAgent :=
                    some (AgentHandle.mk a.modelName none a.messageHistory) }
        false ∧
    (resolveAgent (incrementCredentialsVersion st) n a.modelName loader).state.busGeneration
      = st.busGeneration := by
  have h1 : resolveAgent (incrementCredentialsVersion st) n a.modelName loader =
      ResolveOut.mk
        { st with credentialsVersion := st.credentialsVersion + 1,
                  currentAgent :=
                    some (AgentHandle.mk a.modelName none a.messageHistory) }
        false := by
    simp [incrementCredentialsVersion, resolveAgent, needNewAgent, hA, hN]
  refine ⟨h1, ?_⟩
  rw [h1]

/-- Concrete instance of C3: the resolution following a credential bump keeps the
conversation and the bus, with the artifact cleared. -/
theorem credential_epoch_soft_invalidation_witness :
    (RunnerState.mk (some (AgentHandle.mk "gpt" (some Unit.unit) ["hi"]))
        (some "code-puppy") 0 0).currentAgent =
      some (AgentHandle.mk "gpt" (some Unit.unit) ["hi"]) ∧
    (RunnerState.mk (some (AgentHandle.mk "gpt" (some Unit.unit) ["hi"]))
        (some "code-puppy") 0 0).currentAgentName = some "code-puppy" ∧
    (resolveAgent
        (incrementCredentialsVersion
          (RunnerState.mk (some (AgentHandle.mk "gpt" (some Unit.unit) ["hi"]))
            (some "code-puppy") 0 0))
        "code-puppy" "gpt" none =
      ResolveOut.mk
        (RunnerState.mk (some (AgentHandle.mk "gpt" none ["hi"])) (some "code-puppy") 1 0)
        false ∧
     (resolveAgent
        (incrementCredentialsVersion
          (RunnerState.mk (some (AgentHandle.mk "gpt" (some Unit.unit) ["hi"]))
            (some "code-puppy") 0 0))
        "code-puppy" "gpt" none).state.busGeneration = 0) :=
  ⟨rfl, rfl,
    credential_epoch_soft_invalidation
      (RunnerState.mk (some (AgentHandle.mk "gpt" (some Unit.unit) ["hi"]))
        (some "code-puppy") 0 0)
      (AgentHandle.mk "gpt" (some Unit.unit) ["hi"]) "code-puppy" none rfl rfl⟩

/-- Counterexample to claim C2 as stated: an input request registered in an empty
pending map that then expires by timeout does NOT have its entry removed — the
(now done) future is still stored under its correlation id. The `TimeoutError`
branch of `_handle_input_request` provides the default response to the bus but
never pops `_pending_inputs[prompt_id]`. -/
theorem timeout_leaves_pending_entry :
    lookupFut (handleInputRequest [] "7" "apply?" InputOutcome.timeout).1 "7" =
      some FutState.done := by
  decide

/-- Claim C2 (amended): at most one live entry exists per correlation id at any time
(dict-key uniqueness is preserved by registration and by both resolutions), and
resolution by a client reply removes the entry from the tracking map; an interaction
that expires by timeout instead leaves its entry — holding a completed future — in
the map, where only a later matching reply removes it (then as a no-op on the
already-done future). -/
theorem pending_interaction_tracking (m : PendingMap) (pid prompt r : String)
    (h : keysNodup m) :
    keysNodup (handleInputRequest m pid prompt (InputOutcome.replied r)).1 ∧
    keysNodup (handleInputRequest m pid prompt InputOutcome.timeout).1 ∧
    lookupFut (handleInputRequest m pid prompt (InputOutcome.replied r)).1 pid =
      none ∧
    lookupFut (handleInputRequest m pid prompt InputOutcome.timeout).1 pid =
      some FutState.done ∧
    inputResponse (handleInputRequest m pid prompt InputOutcome.timeout).1 pid r =
      (eraseEntry (handleInputRequest m pid prompt InputOutcome.timeout).1 pid,
       none) := by
  have hm1 : keysNodup (setEntry m pid FutState.pending) :=
    keysNodup_setEntry m pid FutState.pending h
  have hrep : (handleInputRequest m pid prompt (InputOutcome.replied r)).1 =
      eraseEntry (setEntry m pid FutState.pending) pid := by
    simp [handleInputRequest, inputResponse, lookupFut_setEntry_self]
  have htim : (handleInputRequest m pid prompt InputOutcome.timeout).1 =
      setEntry (setEntry m pid FutState.pending) pid FutState.done := rfl
  refine ⟨?_, ?_, ?_, ?_, ?_⟩
  · rw [hrep]
    exact keysNodup_eraseEntry _ pid hm1
  · rw [htim]
    exact keysNodup_setEntry _ pid _ hm1
  · rw [hrep]
    exact lookupFut_eraseEntry_self _ pid hm1
  · rw [htim]
    exact lookupFut_setEntry_self _ pid _
  · rw [htim]
    simp [inputResponse, lookupFut_setEntry_self]

/-- Concrete instance of the amended C2 on an empty pending map. -/
theorem pending_interaction_tracking_witness :
    keysNodup ([] : PendingMap) ∧
    (keysNodup (handleInputRequest [] "7" "p" (InputOutcome.replied "ok")).1 ∧
     keysNodup (handleInputRequest [] "7" "p" InputOutcome.timeout).1 ∧
     lookupFut (handleInputRequest [] "7" "p" (InputOutcome.replied "ok")).1 "7" =
       none ∧
     lookupFut (handleInputRequest [] "7" "p" InputOutcome.timeout).1 "7" =
       some FutState.done ∧
     inputResponse (handleInputRequest [] "7" "p" InputOutcome.timeout).1 "7" "ok" =
       (eraseEntry (handleInputRequest [] "7" "p" InputOutcome.timeout).1 "7",
        none)) :=
  ⟨by decide, pending_interaction_tracking [] "7" "p" "ok" (by decide)⟩

theorem drainLoop_count_le (env : ReplyEnv) :
    ∀ (fuel : Nat) (q : List (Option Msg)) (pm : PendingMap),
      (drainLoop env fuel pm q).2.2 ≤ fuel := by
  intro fuel q
  induction q generalizing fuel with
  | nil =>
    intro pm
    cases fuel <;> simp [drainLoop]
  | cons hd tl ih =>
    intro pm
    cases fuel with
    | zero => simp [drainLoop]
    | succ n =>
      cases hd with
      | none =>
        calc (drainLoop env (n + 1) pm (none :: tl)).2.2
            = (drainLoop env n pm tl).2.2 := rfl
          _ ≤ n := ih n pm
          _ ≤ n + 1 := Nat.le_succ n
      | some m =>
        have e : (drainLoop env (n + 1) pm (some m :: tl)).2.2 =
            (drainLoop env n (forwardMessage pm m env).1 tl).2.2 + 1 := rfl
        rw [e]
        exact Nat.succ_le_succ (ih n _)

theorem drainLoop_count_map_some (env : ReplyEnv) :
    ∀ (fuel : Nat) (q : List Msg) (pm : PendingMap),
      (drainLoop env fuel pm (q.map some)).2.2 = min fuel q.length := by
  intro fuel q
  induction q generalizing fuel with
  | nil =>
    intro pm
    cases fuel <;> simp [drainLoop]
  | cons hd tl ih =>
    intro pm
    cases fuel with
    | zero => simp [drainLoop]
    | succ n =>
      have e : (drainLoop env (n + 1) pm (some hd :: tl.map some)).2.2 =
          (drainLoop env n (forwardMessage pm hd env).1 (tl.map some)).2.2 + 1 := rfl
      simp only [List.map_cons]
      rw [e, ih n]
      simp [Nat.succ_min_succ]

/-- Claim C5: after cancellation the relay's drain phase forwards at most 100
additional queued events, for every possible queue depth and content, and when the
queue holds fewer than 100 events it stops as soon as the queue is empty, having
forwarded exactly the available events (`min 100 (queue length)` for a queue of
non-`None` messages). -/
theorem drain_bounded (env : ReplyEnv) (pm : PendingMap) :
    drainCap = 100 ∧
    (∀ q : List (Option Msg), (drainLoop env drainCap pm q).2.2 ≤ drainCap) ∧
    (∀ q : List Msg,
      (drainLoop env drainCap pm (q.map some)).2.2 = min drainCap q.length) :=
  ⟨rfl, fun q => drainLoop_count_le env drainCap q pm,
    fun q => drainLoop_count_map_some env drainCap q pm⟩

theorem relayForward_append (pm : PendingMap) (xs ys : List (Option Msg))
    (env : ReplyEnv) :
    relayForward pm (xs ++ ys) env =
      ((relayForward (relayForward pm xs env).1 ys env).1,
       (relayForward pm xs env).2 ++ (relayForward (relayForward pm xs env).1 ys env).2) := by
  induction xs generalizing pm with
  | nil => simp [relayForward]
  | cons hd tl ih =>
    cases hd with
    | none =>
      simpa [relayForward] using ih pm
    | some m =>
      simp only [List.cons_append]
      have e1 : relayForward pm (some m :: (tl ++ ys)) env =
          ((relayForward (forwardMessage pm m env).1 (tl ++ ys) env).1,
           (forwardMessage pm m env).2 ++
             (relayForward (forwardMessage pm m env).1 (tl ++ ys) env).2) := rfl
      have e2 : relayForward pm (some m :: tl) env =
          ((relayForward (forwardMessage pm m env).1 tl env).1,
           (forwardMessage pm m env).2 ++
             (relayForward (forwardMessage pm m env).1 tl env).2) := rfl
      rw [e1, e2, ih]
      simp [List.append_assoc]

theorem forwardMessage_request_shape (pm : PendingMap) (m : Msg) (env : ReplyEnv)
    (h : isRequestKind m = true) :
    ∃ (o : Out) (b : BusResponse),
      (forwardMessage pm m env).2 = [Step.send o, Step.resolve b] := by
  cases m <;> try (simp only [isRequestKind] at h; exact absurd h Bool.false_ne_true)
  case inputRequest pid pr =>
    cases henv : env.inputOutcome pid with
    | replied r =>
      refine ⟨Out.inputRequest pid pr, BusResponse.userInput pid r, ?_⟩
      simp [forwardMessage, handleInputRequest, henv]
    | timeout =>
      refine ⟨Out.inputRequest pid pr, BusResponse.userInput pid "", ?_⟩
      simp [forwardMessage, handleInputRequest, henv]
  case confirmationRequest pid pr d af =>
    cases henv : env.confirmOutcome pid with
    | replied c fb =>
      refine ⟨Out.confirmationRequest pid pr d af, BusResponse.confirmation pid c fb, ?_⟩
      simp [forwardMessage, handleConfirmationRequest, henv]
    | timeout =>
      refine ⟨Out.confirmationRequest pid pr d af,
        BusResponse.confirmation pid false none, ?_⟩
      simp [forwardMessage, handleConfirmationRequest, henv]
  case selectionRequest pid pr opts multi =>
    cases henv : env.selectOutcome pid with
    | replied sel =>
      refine ⟨Out.selectionRequest pid pr opts multi,
        BusResponse.selection pid (normalizeSelected sel), ?_⟩
      simp [forwardMessage, handleSelectionRequest, henv]
    | timeout =>
      refine ⟨Out.selectionRequest pid pr opts multi, BusResponse.selection pid [], ?_⟩
      simp [forwardMessage, handleSelectionRequest, henv]

/-- Claim C4: per-session events are forwarded in production order — the steps of a
queue decompose as the concatenation of each event's steps, in queue order — and a
request-kind event contributes exactly a request record followed by its resolution
(`Step.resolve`, the reply or timeout default handed to the backend), so every event
after it in the queue is forwarded only after that resolution: the correlator stalls
the forward loop. -/
theorem relay_request_blocks_later_events (pm : PendingMap)
    (pre post : List (Option Msg)) (m : Msg) (env : ReplyEnv)
    (h : isRequestKind m = true) :
    ∃ (o : Out) (b : BusResponse),
      (relayForward pm (pre ++ some m :: post) env).2 =
        (relayForward pm pre env).2 ++ [Step.send o, Step.resolve b] ++
        (relayForward (forwardMessage (relayForward pm pre env).1 m env).1
          post env).2 := by
  obtain ⟨o, b, hob⟩ := forwardMessage_request_shape (relayForward pm pre env).1 m env h
  refine ⟨o, b, ?_⟩
  rw [relayForward_append pm pre (some m :: post) env]
  have e : relayForward (relayForward pm pre env).1 (some m :: post) env =
      ((relayForward (forwardMessage (relayForward pm pre env).1 m env).1 post env).1,
       (forwardMessage (relayForward pm pre env).1 m env).2 ++
         (relayForward (forwardMessage (relayForward pm pre env).1 m env).1
           post env).2) := rfl
  rw [e]
  simp only [hob]
  simp [List.append_assoc]

/-- Environment in which every request times out, used for the concrete C4
instance. -/
def timeoutEnv : ReplyEnv :=
  ReplyEnv.mk (fun _ => InputOutcome.timeout) (fun _ => ConfirmOutcome.timeout)
    (fun _ => SelectOutcome.timeout)

/-- Concrete instance of C4: a divider, then a confirmation-style input request,
then a shell event; the shell event's record appears only after the request's
resolution step. -/
theorem relay_request_blocks_later_events_witness :
    isRequestKind (Msg.inputRequest "7" "apply?") = true ∧
    (∃ (o : Out) (b : BusResponse),
      (relayForward [] ([some Msg.divider] ++
          some (Msg.inputRequest "7" "apply?") :: [some (Msg.shellStart "ls")])
        timeoutEnv).2 =
        (relayForward [] [some Msg.divider] timeoutEnv).2 ++
          [Step.send o, Step.resolve b] ++
        (relayForward
          (forwardMessage (relayForward [] [some Msg.divider] timeoutEnv).1
            (Msg.inputRequest "7" "apply?") timeoutEnv).1
          [some (Msg.shellStart "ls")] timeoutEnv).2) :=
  ⟨rfl, relay_request_blocks_later_events [] [some Msg.divider]
    [some (Msg.shellStart "ls")] (Msg.inputRequest "7" "apply?") timeoutEnv rfl⟩

theorem stepTerminalCount_append (a b : List Step) :
    stepTerminalCount (a ++ b) = stepTerminalCount a + stepTerminalCount b :=
  List.countP_append _ _ _

theorem forwardMessage_no_terminal (pm : PendingMap) (m : Msg) (env : ReplyEnv) :
    stepTerminalCount (forwardMessage pm m env).2 = 0 := by
  cases m
  case inputRequest pid pr =>
    cases henv : env.inputOutcome pid <;>
      simp [forwardMessage, handleInputRequest, stepTerminalCount, henv,
        List.countP_cons, List.countP_nil]
  case confirmationRequest pid pr d af =>
    cases henv : env.confirmOutcome pid <;>
      simp [forwardMessage, handleConfirmationRequest, stepTerminalCount, henv,
        List.countP_cons, List.countP_nil]
  case selectionRequest pid pr opts multi =>
    cases henv : env.selectOutcome pid <;>
      simp [forwardMessage, handleSelectionRequest, stepTerminalCount, henv,
        List.countP_cons, List.countP_nil]
  case versionCheck upd cv lv => cases upd <;> rfl
  case generic c => by_cases hc : c = "" <;> simp [forwardMessage, stepTerminalCount, hc]
  all_goals rfl

theorem relayForward_no_terminal (pm : PendingMap) (msgs : List (Option Msg))
    (env : ReplyEnv) :
    stepTerminalCount (relayForward pm msgs env).2 = 0 := by
  induction msgs generalizing pm with
  | nil => rfl
  | cons hd tl ih =>
    cases hd with
    | none => exact ih pm
    | some m =>
      have e : (relayForward pm (some m :: tl) env).2 =
          (forwardMessage pm m env).2 ++
            (relayForward (forwardMessage pm m env).1 tl env).2 := rfl
      rw [e, stepTerminalCount_append, forwardMessage_no_terminal pm m env,
        ih (forwardMessage pm m env).1]

/-- Claim C1: every handled client prompt emits the terminal signal `task_complete`
exactly once — on agent-load failure, on backend success, on cooperative
cancellation, and on internal failure alike — and the relay itself never emits a
`task_complete` record, so one unit of work yields exactly one terminal signal. -/
theorem task_complete_exactly_once :
    (∀ (st : RunnerState) (defaultAgent defaultModel : String)
        (loader : Option AgentHandle) (outcome : RunOutcome),
        terminalCount (runPrompt st defaultAgent defaultModel loader outcome).2 = 1) ∧
    (∀ (pm : PendingMap) (msgs : List (Option Msg)) (env : ReplyEnv),
        stepTerminalCount (relayForward pm msgs env).2 = 0) := by
  constructor
  · intro st da dm loader outcome
    have hfe : terminalCount (finishEvents outcome) = 1 := by
      cases outcome with
      | success resp =>
        cases resp with
        | none => rfl
        | some r => by_cases hr : r = "" <;> simp [finishEvents, hr, terminalCount]
      | cancelled => rfl
      | failure msg => rfl
    cases hf : (resolveAgent st da dm loader).failed
    · have e : runPrompt st da dm loader outcome =
          ((resolveAgent st da dm loader).state, finishEvents outcome) := by
        simp [runPrompt, hf]
      rw [e]
      exact hfe
    · have e : runPrompt st da dm loader outcome =
          ((resolveAgent st da dm loader).state,
           [Out.errorOut ("Failed to load agent: " ++ da), Out.taskComplete]) := by
        simp [runPrompt, hf]
      rw [e]
      rfl
  · intro pm msgs env
    exact relayForward_no_terminal pm msgs env

end GuiPuppy
